import Mathlib

/-!
Shallow embedding of ctty-rs (src/lib.rs): resolution of a process's
controlling TTY.  The Linux device-ID resolver `get_ctty_dev` parses the
contents of /proc/self/stat; we embed it as a function of the record's
character list.  The Linux path resolver `get_path_for_dev` probes the
filesystem through a glob primitive and stat; we embed it parameterised by
an environment supplying those primitives.  The BSD path resolver wraps the
native devname_r primitive; we embed it parameterised by that primitive's
result.  A Rust panic (out-of-range string slice, Result::unwrap on Err) is
modelled as the value `none` of an `Option`-typed result.
-/

set_option autoImplicit false

/-- The error enum `CttyError` from src/lib.rs.  The payload of `IOError`
is irrelevant to the claims and omitted. -/
inductive CttyError
  | NotFound
  | SystemDataParseFailure
  | SystemPermissionFailure
  | IOError
deriving DecidableEq, Repr

instance exceptDecEq {ε α : Type} [DecidableEq ε] [DecidableEq α] :
    DecidableEq (Except ε α) := fun a b =>
  match a, b with
  | .error e, .error f =>
    if h : e = f then isTrue (by rw [h])
    else isFalse (fun hc => h (Except.error.inj hc))
  | .error _, .ok _ => isFalse Except.noConfusion
  | .ok _, .error _ => isFalse Except.noConfusion
  | .ok x, .ok y =>
    if h : x = y then isTrue (by rw [h])
    else isFalse (fun hc => h (Except.ok.inj hc))

/-- Index of the last occurrence of `c`, as `str::rfind` computes it
(character-level model of the byte index; all inputs of interest are
ASCII, where the two coincide). -/
def rfindChar (c : Char) : List Char → Option Nat
  | [] => none
  | x :: xs =>
    match rfindChar c xs with
    | some i => some (i + 1)
    | none => if x = c then some 0 else none

/-- Rust `str::split_whitespace`: split on whitespace, dropping empty
tokens. -/
def split_whitespace (s : List Char) : List (List Char) :=
  (s.splitOnP (fun c => c.isWhitespace)).filter (fun t => !t.isEmpty)

/-- Decimal value of a digit string, by the usual left fold. -/
def digitsVal (digits : List Char) : Nat :=
  digits.foldl (fun a c => a * 10 + (c.toNat - '0'.toNat)) 0

/-- Digit-and-range stage of `str::parse::<i32>`: one or more ASCII
digits whose signed value fits in 32 bits. -/
def parse_i32_core (sign : Int) (digits : List Char) : Option Int :=
  if digits.isEmpty then none
  else if digits.all (fun c => c.isDigit) then
    if -(2 ^ 31) ≤ sign * (digitsVal digits : Int) ∧
        sign * (digitsVal digits : Int) ≤ 2 ^ 31 - 1 then
      some (sign * (digitsVal digits : Int))
    else none
  else none

/-- Rust `str::parse::<i32>`: an optional sign followed by one or more
ASCII digits, whose value fits in a signed 32-bit integer; anything else
is a parse error (`none`). -/
def parse_i32 (s : List Char) : Option Int :=
  match s with
  | '+' :: rest => parse_i32_core 1 rest
  | '-' :: rest => parse_i32_core (-1) rest
  | _ => parse_i32_core 1 s

/-- Rust `i32 as u64`: sign-extend to 64 bits, i.e. reduce modulo 2^64. -/
def i32_as_u64 (n : Int) : Nat := (n % (2 ^ 64)).toNat

/-- Rust `&s[i..]`: `none` models the panic when the start index is past
the end of the string. -/
def sliceFrom (s : List Char) (i : Nat) : Option (List Char) :=
  if i ≤ s.length then some (s.drop i) else none

/-- The stage of `get_ctty_dev` after the field region has been isolated:
split on whitespace, take the token at offset 4, parse it as i32 and
widen to u64 (src/lib.rs lines 60-68). -/
def fieldsStage (region : List Char) : Except CttyError Nat :=
  match (split_whitespace region)[4]? with
  | none => .error .SystemDataParseFailure
  | some tok =>
    match parse_i32 tok with
    | none => .error .SystemDataParseFailure
    | some n => .ok (i32_as_u64 n)

/-- Linux `get_ctty_dev` (src/lib.rs lines 44-69) as a function of the
/proc/self/stat record it read: find the last `)`, error if absent or at
index 0, slice from two characters past it (a panic — `none` — if that
start index is out of range), then parse the field region. -/
def get_ctty_dev (stat : List Char) : Option (Except CttyError Nat) :=
  let start_idx := (rfindChar ')' stat).getD 0
  if start_idx = 0 then some (.error .SystemDataParseFailure)
  else
    match sliceFrom stat (start_idx + 2) with
    | none => none
    | some region => some (fieldsStage region)

/-- File status metadata; only the device-identifier field matters here. -/
structure FileStat where
  st_rdev : Nat
deriving DecidableEq, Repr

/-- The filesystem surface `get_path_for_dev` probes: the glob primitive
(which may fail to start on a pattern, and whose enumeration yields
entries that may individually be errors) and the stat primitive (which may
fail per path). -/
structure LinuxEnv where
  glob : String → Except Unit (List (Except Unit (List Char)))
  stat : List Char → Except Unit FileStat

/-- The fixed pattern list of the Linux `get_path_for_dev`
(src/lib.rs line 74). -/
def patterns : List String := ["/dev/pts/*", "/dev/tty"]

/-- Inner loop of `get_path_for_dev` (src/lib.rs lines 77-97): walk the
glob entries in order; an error entry is skipped, a failing stat is
skipped, and the first path whose `st_rdev` equals the target is
returned. -/
def scanEntries (env : LinuxEnv) (dev : Nat) :
    List (Except Unit (List Char)) → Option (List Char)
  | [] => none
  | .error _ :: rest => scanEntries env dev rest
  | .ok path :: rest =>
    match env.stat path with
    | .error _ => scanEntries env dev rest
    | .ok s => if dev = s.st_rdev then some path else scanEntries env dev rest

/-- Outer loop of `get_path_for_dev` (src/lib.rs lines 76-100): patterns
in order; `glob(pattern).unwrap()` panics (`none`) when the primitive
fails to start; after all patterns, NotFound. -/
def scanPatterns (env : LinuxEnv) (dev : Nat) :
    List String → Option (Except CttyError (List Char))
  | [] => some (.error .NotFound)
  | pat :: rest =>
    match env.glob pat with
    | .error _ => none
    | .ok entries =>
      match scanEntries env dev entries with
      | some path => some (.ok path)
      | none => scanPatterns env dev rest

/-- Linux `get_path_for_dev` (src/lib.rs lines 72-101).  Paths are
modelled as character lists (the `path.to_str().unwrap()` conversion is
the identity here). -/
def get_path_for_dev (env : LinuxEnv) (dev : Nat) :
    Option (Except CttyError (List Char)) :=
  scanPatterns env dev patterns

/-- The result of the native `devname_r` primitive on the BSD family, per
device identifier: `none` models a NULL return, `some name` the
NUL-terminated base name it wrote into the caller's buffer. -/
structure BsdEnv where
  devname : Nat → Option (List Char)

/-- BSD `get_path_for_dev` (src/lib.rs lines 137-152): NotFound when the
primitive returns NULL or a name whose first byte is `?` or `#`;
otherwise "/dev/" prepended to the name. -/
def get_path_for_dev_bsd (env : BsdEnv) (dev : Nat) :
    Except CttyError (List Char) :=
  match env.devname dev with
  | none => .error .NotFound
  | some name =>
    if name.head? = some '?' ∨ name.head? = some '#' then .error .NotFound
    else .ok ("/dev/".toList ++ name)

/-- The stat device identifier the environment reports for a path, when
stat succeeds. -/
def statRdev (env : LinuxEnv) (p : List Char) : Option Nat :=
  match env.stat p with
  | .error _ => none
  | .ok s => some s.st_rdev

/-- Declarative reading of one step of the candidate scan: an enumeration
entry is a match exactly when it is an ok path whose stat succeeds with
the target device identifier; error entries and failing stats never
match. -/
def matchesDev (env : LinuxEnv) (dev : Nat) : Except Unit (List Char) → Option (List Char)
  | .error _ => none
  | .ok p =>
    match env.stat p with
    | .error _ => none
    | .ok s => if dev = s.st_rdev then some p else none

/-- Declarative first-match: the first entry of the list, in order, on
which `matchesDev` fires.  The ordering claim of the spec relates the
path resolver to this function applied to the concatenation of the
per-pattern enumerations. -/
def firstMatch (env : LinuxEnv) (dev : Nat) :
    List (Except Unit (List Char)) → Option (List Char)
  | [] => none
  | e :: rest =>
    match matchesDev env dev e with
    | some p => some p
    | none => firstMatch env dev rest

/-- A path that begins with the five characters "/dev/". -/
def beginsWithDev (p : List Char) : Prop := p.take 5 = "/dev/".toList

/-- The failure condition of the BSD path resolver: the primitive
returned NULL, or a name whose first character is `?` or `#`. -/
def bsdFails (env : BsdEnv) (dev : Nat) : Prop :=
  env.devname dev = none ∨
    ∃ name, env.devname dev = some name ∧
      (name.head? = some '?' ∨ name.head? = some '#')

/-- A concrete filesystem surface: one pseudo-terminal slave with device
identifier 34816 and the legacy /dev/tty node with identifier 1024. -/
def envW : LinuxEnv :=
  ⟨fun pat =>
      if pat = "/dev/pts/*" then .ok [.ok "/dev/pts/3".toList]
      else if pat = "/dev/tty" then .ok [.ok "/dev/tty".toList]
      else .error (),
    fun p =>
      if p = "/dev/pts/3".toList then .ok ⟨34816⟩
      else if p = "/dev/tty".toList then .ok ⟨1024⟩
      else .error ()⟩

/-- A concrete filesystem surface in which a glob entry fails to
enumerate, one candidate fails to stat, and three distinct nodes carry
the same device identifier 34816. -/
def envAlias : LinuxEnv :=
  ⟨fun pat =>
      if pat = "/dev/pts/*" then
        .ok [.error (), .ok "/dev/pts/2".toList, .ok "/dev/pts/3".toList,
             .ok "/dev/pts/4".toList]
      else if pat = "/dev/tty" then .ok [.ok "/dev/tty".toList]
      else .error (),
    fun p =>
      if p = "/dev/pts/3".toList then .ok ⟨34816⟩
      else if p = "/dev/pts/4".toList then .ok ⟨34816⟩
      else if p = "/dev/tty".toList then .ok ⟨34816⟩
      else .error ()⟩

/-- A concrete filesystem surface with no node carrying device
identifier 34816: one entry fails to enumerate, one candidate fails to
stat, and the others carry different identifiers. -/
def envMiss : LinuxEnv :=
  ⟨fun pat =>
      if pat = "/dev/pts/*" then
        .ok [.error (), .ok "/dev/pts/0".toList, .ok "/dev/pts/1".toList]
      else if pat = "/dev/tty" then .ok [.ok "/dev/tty".toList]
      else .error (),
    fun p =>
      if p = "/dev/pts/1".toList then .ok ⟨999⟩
      else if p = "/dev/tty".toList then .ok ⟨1024⟩
      else .error ()⟩

/-- An environment whose enumeration primitive fails to start on every
pattern. -/
def envBad : LinuxEnv := ⟨fun _ => .error (), fun _ => .error ()⟩

/-- An environment whose enumeration primitive yields the same single
/dev-rooted candidate for every pattern. -/
def envC10 : LinuxEnv :=
  ⟨fun _ => .ok [.ok "/dev/pts/3".toList],
    fun p => if p = "/dev/pts/3".toList then .ok ⟨34816⟩ else .error ()⟩

/-- A concrete BSD name-resolution primitive: device 7 resolves to the
base name ttys003, device 8 to the unknown-device sentinel, and every
other identifier to NULL. -/
def envBsd : BsdEnv :=
  ⟨fun d => if d = 7 then some "ttys003".toList
    else if d = 8 then some "?".toList
    else none⟩

/-! ### Helper lemmas -/

theorem rfindChar_eq_none {c : Char} : ∀ {s : List Char}, c ∉ s → rfindChar c s = none
  | [], _ => rfl
  | x :: xs, h => by
    have hx : ¬x = c := fun hx => h (hx ▸ List.mem_cons_self x xs)
    have ht : rfindChar c xs = none :=
      rfindChar_eq_none fun hm => h (List.mem_cons_of_mem x hm)
    simp [rfindChar, ht, hx]

theorem rfindChar_append_last {a b : List Char} (hb : ')' ∉ b) :
    rfindChar ')' (a ++ ')' :: b) = some a.length := by
  induction a with
  | nil => simp [rfindChar, rfindChar_eq_none hb]
  | cons x xs ih => simp [rfindChar, ih]

theorem split_whitespace_nil : split_whitespace [] = [] := rfl

theorem scanEntries_eq_firstMatch (env : LinuxEnv) (dev : Nat) :
    ∀ es : List (Except Unit (List Char)),
      scanEntries env dev es = firstMatch env dev es
  | [] => rfl
  | .error e :: rest => by
    simp [scanEntries, firstMatch, matchesDev, scanEntries_eq_firstMatch env dev rest]
  | .ok p :: rest => by
    simp only [scanEntries, firstMatch, matchesDev]
    cases hs : env.stat p with
    | error e => simp [scanEntries_eq_firstMatch env dev rest]
    | ok s =>
      by_cases hd : dev = s.st_rdev
      · simp [hd]
      · simp [hd, scanEntries_eq_firstMatch env dev rest]

theorem firstMatch_append (env : LinuxEnv) (dev : Nat) (l1 l2 : List (Except Unit (List Char))) :
    firstMatch env dev (l1 ++ l2) =
      match firstMatch env dev l1 with
      | some p => some p
      | none => firstMatch env dev l2 := by
  induction l1 with
  | nil => rfl
  | cons e rest ih =>
    simp only [List.cons_append, firstMatch]
    cases matchesDev env dev e with
    | some p => rfl
    | none => exact ih

theorem matchesDev_sound (env : LinuxEnv) (dev : Nat) (e : Except Unit (List Char))
    (p : List Char) (h : matchesDev env dev e = some p) :
    statRdev env p = some dev ∧ e = Except.ok p := by
  cases e with
  | error u => exact absurd h (by simp [matchesDev])
  | ok path =>
    simp only [matchesDev] at h
    split at h
    · exact absurd h (by simp)
    · rename_i s hs
      split at h
      · rename_i hd
        cases h
        exact ⟨by simp [statRdev, hs, hd], rfl⟩
      · exact absurd h (by simp)

theorem firstMatch_sound (env : LinuxEnv) (dev : Nat) :
    ∀ es p, firstMatch env dev es = some p →
      statRdev env p = some dev ∧ Except.ok p ∈ es := by
  intro es
  induction es with
  | nil => intro p h; exact absurd h (by simp [firstMatch])
  | cons e rest ih =>
    intro p h
    simp only [firstMatch] at h
    cases hm : matchesDev env dev e with
    | some q =>
      rw [hm] at h
      cases h
      obtain ⟨h1, h2⟩ := matchesDev_sound env dev e p hm
      exact ⟨h1, h2 ▸ List.mem_cons_self _ _⟩
    | none =>
      rw [hm] at h
      obtain ⟨h1, h2⟩ := ih p h
      exact ⟨h1, List.mem_cons_of_mem _ h2⟩

theorem firstMatch_eq_none (env : LinuxEnv) (dev : Nat) :
    ∀ es, (∀ e ∈ es, matchesDev env dev e = none) → firstMatch env dev es = none := by
  intro es
  induction es with
  | nil => intro _; rfl
  | cons e rest ih =>
    intro h
    simp only [firstMatch, h e (List.mem_cons_self _ _)]
    exact ih fun x hx => h x (List.mem_cons_of_mem _ hx)

theorem get_path_eq_firstMatch (env : LinuxEnv) (dev : Nat)
    (e1 e2 : List (Except Unit (List Char)))
    (h1 : env.glob "/dev/pts/*" = .ok e1) (h2 : env.glob "/dev/tty" = .ok e2) :
    get_path_for_dev env dev =
      some (match firstMatch env dev (e1 ++ e2) with
            | some p => .ok p
            | none => .error CttyError.NotFound) := by
  unfold get_path_for_dev patterns
  simp only [scanPatterns, h1, h2, scanEntries_eq_firstMatch, firstMatch_append]
  cases hf1 : firstMatch env dev e1 with
  | some p => rfl
  | none =>
    cases hf2 : firstMatch env dev e2 with
    | some p => rfl
    | none => rfl

theorem scanPatterns_ok_trace (env : LinuxEnv) (dev : Nat) :
    ∀ (ps : List String) (p : List Char),
      scanPatterns env dev ps = some (.ok p) →
      ∃ pat ∈ ps, ∃ es, env.glob pat = .ok es ∧ firstMatch env dev es = some p := by
  intro ps
  induction ps with
  | nil => intro p h; exact absurd h (by simp [scanPatterns])
  | cons pat rest ih =>
    intro p h
    simp only [scanPatterns] at h
    split at h
    · exact absurd h (by simp)
    · rename_i es hg
      rw [scanEntries_eq_firstMatch] at h
      split at h
      · rename_i q hf
        simp only [Option.some.injEq, Except.ok.injEq] at h
        subst h
        exact ⟨pat, List.mem_cons_self _ _, es, hg, hf⟩
      · obtain ⟨pat2, hmem, es2, hg2, hf2⟩ := ih p h
        exact ⟨pat2, List.mem_cons_of_mem _ hmem, es2, hg2, hf2⟩

theorem parse_i32_core_range (sign : Int) (digits : List Char) (n : Int)
    (h : parse_i32_core sign digits = some n) :
    -(2 ^ 31) ≤ n ∧ n ≤ 2 ^ 31 - 1 := by
  unfold parse_i32_core at h
  split at h
  · exact absurd h (by simp)
  · split at h
    · split at h
      · rename_i h3
        rw [Option.some.injEq] at h
        subst h
        exact h3
      · exact absurd h (by simp)
    · exact absurd h (by simp)

theorem parse_i32_range (s : List Char) (n : Int) (h : parse_i32 s = some n) :
    -(2 ^ 31) ≤ n ∧ n ≤ 2 ^ 31 - 1 := by
  unfold parse_i32 at h
  split at h
  · exact parse_i32_core_range _ _ _ h
  · exact parse_i32_core_range _ _ _ h
  · exact parse_i32_core_range _ _ _ h

theorem get_ctty_dev_of_token (s : List Char) (idx : Nat) (tok : List Char)
    (hidx : rfindChar ')' s = some idx) (hpos : 0 < idx)
    (htok : (split_whitespace (s.drop (idx + 2)))[4]? = some tok) :
    get_ctty_dev s =
      some (match parse_i32 tok with
            | none => .error CttyError.SystemDataParseFailure
            | some n => .ok (i32_as_u64 n)) := by
  have hrange : idx + 2 ≤ s.length := by
    by_contra hc
    push_neg at hc
    have hdrop : s.drop (idx + 2) = [] := List.drop_eq_nil_of_le (by omega)
    rw [hdrop, split_whitespace_nil] at htok
    exact absurd htok (by simp)
  have hslice : sliceFrom s (idx + 2) = some (s.drop (idx + 2)) := by
    unfold sliceFrom
    rw [if_pos hrange]
  simp only [get_ctty_dev, hidx, Option.getD_some, hslice]
  rw [if_neg (by omega : ¬idx = 0)]
  unfold fieldsStage
  rw [htok]

theorem get_path_bsd_none (env : BsdEnv) (dev : Nat)
    (hd : env.devname dev = none) :
    get_path_for_dev_bsd env dev = .error CttyError.NotFound := by
  unfold get_path_for_dev_bsd
  rw [hd]

theorem get_path_bsd_sentinel (env : BsdEnv) (dev : Nat) (name : List Char)
    (hd : env.devname dev = some name)
    (hc : name.head? = some '?' ∨ name.head? = some '#') :
    get_path_for_dev_bsd env dev = .error CttyError.NotFound := by
  unfold get_path_for_dev_bsd
  rw [hd]
  exact if_pos hc

theorem get_path_bsd_name (env : BsdEnv) (dev : Nat) (name : List Char)
    (hd : env.devname dev = some name)
    (hc : ¬(name.head? = some '?' ∨ name.head? = some '#')) :
    get_path_for_dev_bsd env dev = .ok ("/dev/".toList ++ name) := by
  unfold get_path_for_dev_bsd
  rw [hd]
  exact if_neg hc

theorem get_path_bsd_ok (env : BsdEnv) (dev : Nat) (p : List Char)
    (h : get_path_for_dev_bsd env dev = .ok p) :
    ∃ name, env.devname dev = some name ∧ p = "/dev/".toList ++ name := by
  unfold get_path_for_dev_bsd at h
  split at h
  · exact absurd h (by simp)
  · rename_i name hd
    split at h
    · exact absurd h (by simp)
    · exact ⟨name, hd, (Except.ok.inj h).symm⟩

theorem beginsWithDev_append (t : List Char) : beginsWithDev ("/dev/".toList ++ t) := by
  unfold beginsWithDev
  have h5 : (5 : Nat) = ("/dev/".toList).length := rfl
  rw [h5]
  exact List.take_left _ _

theorem get_ctty_dev_eq (s : List Char) :
    get_ctty_dev s =
      if (rfindChar ')' s).getD 0 = 0 then some (.error CttyError.SystemDataParseFailure)
      else
        match sliceFrom s ((rfindChar ')' s).getD 0 + 2) with
        | none => none
        | some region => some (fieldsStage region) := rfl

/-! ### Claims -/

/-- C1: whenever the Linux `get_path_for_dev` returns a path `p` for a
requested device identifier `dev`, the filesystem status metadata of `p`
reports `st_rdev = dev` (the returned value round-trips), regardless of
which alias was returned. -/
theorem c1_roundtrip (env : LinuxEnv) (dev : Nat) (p : List Char)
    (h : get_path_for_dev env dev = some (.ok p)) :
    statRdev env p = some dev := by
  obtain ⟨pat, hmem, es, hg, hf⟩ := scanPatterns_ok_trace env dev patterns p h
  exact (firstMatch_sound env dev es p hf).1

/-- C1 witness: in the concrete environment `envW`, device 34816 resolves
to /dev/pts/3 and that path's stat reports 34816 back. -/
theorem c1_roundtrip_witness :
    get_path_for_dev envW 34816 = some (.ok "/dev/pts/3".toList) ∧
    statRdev envW "/dev/pts/3".toList = some 34816 :=
  ⟨by decide, c1_roundtrip envW 34816 "/dev/pts/3".toList (by decide)⟩

/-- C2 counterexample: the record "x)" contains a `)` and has fewer than
5 tokens after the delimiter, yet `get_ctty_dev` does not return
SystemDataParseFailure: the slice start index last-paren+2 = 3 exceeds
the record length 2, an out-of-range string access (a Rust panic,
modelled as `none`). -/
theorem c2_counterexample :
    get_ctty_dev "x)".toList = none ∧
    get_ctty_dev "x)".toList ≠ some (.error CttyError.SystemDataParseFailure) := by
  decide

/-- C2 (amended): for every status record containing a `)`, with fewer
than 5 whitespace-separated tokens after the delimiter (last `)` plus two
characters), `get_ctty_dev` returns SystemDataParseFailure — provided the
record does not end exactly at a last `)` located at positive index (in
that excluded case the slice start is out of range, a panic). -/
theorem c2_amended (s : List Char) (hmem : ')' ∈ s)
    (hfew : (split_whitespace (s.drop ((rfindChar ')' s).getD 0 + 2))).length < 5)
    (hrange : (rfindChar ')' s).getD 0 = 0 ∨ (rfindChar ')' s).getD 0 + 2 ≤ s.length) :
    get_ctty_dev s = some (.error CttyError.SystemDataParseFailure) := by
  rw [get_ctty_dev_eq]
  by_cases h0 : (rfindChar ')' s).getD 0 = 0
  · rw [if_pos h0]
  · rw [if_neg h0]
    have hr : (rfindChar ')' s).getD 0 + 2 ≤ s.length := hrange.resolve_left h0
    have hslice : sliceFrom s ((rfindChar ')' s).getD 0 + 2) =
        some (s.drop ((rfindChar ')' s).getD 0 + 2)) := by
      unfold sliceFrom
      rw [if_pos hr]
    rw [hslice]
    have hnone : (split_whitespace (s.drop ((rfindChar ')' s).getD 0 + 2)))[4]? = none :=
      List.getElem?_eq_none (by omega)
    show some (fieldsStage (s.drop ((rfindChar ')' s).getD 0 + 2))) = _
    unfold fieldsStage
    rw [hnone]

/-- C2 witness: the record "1 (a) R" has one token after the delimiter
and yields SystemDataParseFailure. -/
theorem c2_amended_witness :
    get_ctty_dev "1 (a) R".toList = some (.error CttyError.SystemDataParseFailure) :=
  c2_amended "1 (a) R".toList (by decide) (by decide) (by decide)

/-- C3: with both glob patterns enumerating successfully, the Linux
`get_path_for_dev` returns exactly the first matching candidate of the
per-pattern enumerations concatenated in pattern order ("/dev/pts/*"
then "/dev/tty"), entries within a pattern in enumeration order; if no
candidate matches it returns NotFound.  Ties between aliases are broken
by this fixed ordering. -/
theorem c3_first_match (env : LinuxEnv) (dev : Nat)
    (e1 e2 : List (Except Unit (List Char)))
    (h1 : env.glob "/dev/pts/*" = .ok e1) (h2 : env.glob "/dev/tty" = .ok e2) :
    get_path_for_dev env dev =
      some (match firstMatch env dev (e1 ++ e2) with
            | some p => .ok p
            | none => .error CttyError.NotFound) :=
  get_path_eq_firstMatch env dev e1 e2 h1 h2

/-- C3 witness: in `envAlias` three nodes carry st_rdev 34816; the first
in pattern-then-enumeration order is /dev/pts/3 (st_rdev 34816), which is
returned, matching the spec's example. -/
theorem c3_first_match_witness :
    get_path_for_dev envAlias 34816 = some (.ok "/dev/pts/3".toList) := by
  have h := c3_first_match envAlias 34816
      [.error (), .ok "/dev/pts/2".toList, .ok "/dev/pts/3".toList, .ok "/dev/pts/4".toList]
      [.ok "/dev/tty".toList] (by decide) (by decide)
  rw [h]
  decide

/-- C4 counterexample: in the record ") a b c d 34816" the last `)` sits
at index 0, the token at offset 4 after the delimiter-plus-two is the
valid i32 "34816", yet `get_ctty_dev` returns SystemDataParseFailure
rather than 34816 (the code rejects a record whose last `)` is at
index 0 before ever reaching the token). -/
theorem c4_counterexample :
    rfindChar ')' ") a b c d 34816".toList = some 0 ∧
    (split_whitespace ((") a b c d 34816".toList).drop 2))[4]? = some "34816".toList ∧
    parse_i32 "34816".toList = some 34816 ∧
    get_ctty_dev ") a b c d 34816".toList = some (.error CttyError.SystemDataParseFailure) ∧
    get_ctty_dev ") a b c d 34816".toList ≠ some (.ok 34816) := by
  decide

/-- C4 (amended): provided the last `)` of the record sits at a positive
index, if the token at zero-based offset 4 after the delimiter (last `)`
plus two characters) parses as a signed 32-bit integer n, `get_ctty_dev`
succeeds with n widened to unsigned 64 bits, and if that token is not a
valid signed 32-bit integer it returns SystemDataParseFailure. -/
theorem c4_amended (s : List Char) (idx : Nat) (tok : List Char)
    (hidx : rfindChar ')' s = some idx) (hpos : 0 < idx)
    (htok : (split_whitespace (s.drop (idx + 2)))[4]? = some tok) :
    get_ctty_dev s =
      some (match parse_i32 tok with
            | none => .error CttyError.SystemDataParseFailure
            | some n => .ok (i32_as_u64 n)) :=
  get_ctty_dev_of_token s idx tok hidx hpos htok

/-- C4 witness: the spec's example record resolves to device identifier
34816. -/
theorem c4_amended_witness :
    get_ctty_dev "123 (my proc) S 1 2 3 34816".toList = some (.ok 34816) := by
  have h := c4_amended "123 (my proc) S 1 2 3 34816".toList 12 "34816".toList
      (by decide) (by decide) (by decide)
  rw [h]
  decide

/-- C5: `get_ctty_dev` locates the field region from the LAST `)` of the
record: for any record of the shape a ++ ')' ++ b with no `)` in b and a
nonempty (so the process-name part a may contain embedded `)` or spaces),
the result depends only on b — it is the field parse of b minus its first
character (or the out-of-range panic when the record ends at that `)`);
and every record containing no `)` at all yields
SystemDataParseFailure. -/
theorem c5_last_delimiter (a b : List Char) (ha : a ≠ []) (hb : ')' ∉ b) :
    get_ctty_dev (a ++ ')' :: b) =
      (match b with
       | [] => none
       | _ :: t => some (fieldsStage t)) ∧
    ∀ r : List Char, ')' ∉ r →
      get_ctty_dev r = some (.error CttyError.SystemDataParseFailure) := by
  constructor
  · have hfind : rfindChar ')' (a ++ ')' :: b) = some a.length := rfindChar_append_last hb
    have hlen0 : a.length ≠ 0 := fun h => ha (List.length_eq_zero.mp h)
    rw [get_ctty_dev_eq, hfind]
    simp only [Option.getD_some]
    rw [if_neg hlen0]
    cases b with
    | nil =>
      have hslice : sliceFrom (a ++ [')']) (a.length + 2) = none := by
        unfold sliceFrom
        rw [if_neg]
        simp
      rw [hslice]
    | cons x t =>
      have hslice : sliceFrom (a ++ ')' :: x :: t) (a.length + 2) = some t := by
        have hsplit : a ++ ')' :: x :: t = (a ++ [')', x]) ++ t := by simp
        unfold sliceFrom
        rw [if_pos (by simp)]
        rw [hsplit, show a.length + 2 = (a ++ [')', x]).length by simp]
        exact congrArg some (List.drop_left _ _)
      rw [hslice]
  · intro r hr
    rw [get_ctty_dev_eq, rfindChar_eq_none hr]
    rfl

/-- C5 witness: a record whose name part contains an embedded `)`, `(`
and spaces still parses from the last `)`; a record with no `)` fails. -/
theorem c5_last_delimiter_witness :
    get_ctty_dev ("9 (w)x".toList ++ ')' :: " R 1 2 3 34816".toList) =
      some (fieldsStage "R 1 2 3 34816".toList) ∧
    get_ctty_dev "no paren here".toList = some (.error CttyError.SystemDataParseFailure) := by
  have h := c5_last_delimiter "9 (w)x".toList " R 1 2 3 34816".toList (by decide) (by decide)
  exact ⟨(h.1).trans (by decide), h.2 "no paren here".toList (by decide)⟩

/-- C6: with both glob patterns enumerating successfully, if no entry of
either enumeration matches the target device — error entries and
candidates whose stat fails count as non-matches and are silently
skipped — then `get_path_for_dev` returns NotFound. -/
theorem c6_notfound (env : LinuxEnv) (dev : Nat)
    (e1 e2 : List (Except Unit (List Char)))
    (h1 : env.glob "/dev/pts/*" = .ok e1) (h2 : env.glob "/dev/tty" = .ok e2)
    (hnone : ∀ e ∈ e1 ++ e2, matchesDev env dev e = none) :
    get_path_for_dev env dev = some (.error CttyError.NotFound) := by
  rw [get_path_eq_firstMatch env dev e1 e2 h1 h2,
    firstMatch_eq_none env dev (e1 ++ e2) hnone]

/-- C6 witness: in `envMiss` one entry fails to enumerate, one candidate
fails to stat and the rest carry other identifiers; the lookup of 34816
returns NotFound rather than crashing. -/
theorem c6_notfound_witness :
    get_path_for_dev envMiss 34816 = some (.error CttyError.NotFound) :=
  c6_notfound envMiss 34816
    [.error (), .ok "/dev/pts/0".toList, .ok "/dev/pts/1".toList]
    [.ok "/dev/tty".toList] (by decide) (by decide) (by decide)

/-- C7 counterexample: when the enumeration primitive fails to start
(here on every pattern), `get_path_for_dev` does not surface a typed
error outcome: it unwraps the failure, a panic (`none`), in particular
not the IOError outcome the claim describes. -/
theorem c7_counterexample :
    get_path_for_dev envBad 5 = none ∧
    get_path_for_dev envBad 5 ≠ some (.error CttyError.IOError) := by
  decide

/-- C7 (amended): if the enumeration primitive fails to start on the
first pattern, `get_path_for_dev` panics (it unwraps the failed result;
modelled as `none`) instead of returning any typed error outcome. -/
theorem c7_amended (env : LinuxEnv) (dev : Nat)
    (h : env.glob "/dev/pts/*" = .error ()) :
    get_path_for_dev env dev = none := by
  unfold get_path_for_dev patterns
  simp only [scanPatterns, h]

/-- C7 witness: the amended behaviour at the concrete failing
environment. -/
theorem c7_amended_witness : get_path_for_dev envBad 5 = none :=
  c7_amended envBad 5 rfl

/-- C8: the BSD `get_path_for_dev` returns NotFound exactly when the
native name-resolution primitive returns NULL or a name beginning with
`?` or `#`; in every other case it succeeds with "/dev/" prepended to
the returned base name. -/
theorem c8_bsd_lookup (env : BsdEnv) (dev : Nat) :
    (get_path_for_dev_bsd env dev = .error CttyError.NotFound ↔ bsdFails env dev) ∧
    ∀ name, env.devname dev = some name →
      ¬(name.head? = some '?' ∨ name.head? = some '#') →
      get_path_for_dev_bsd env dev = .ok ("/dev/".toList ++ name) := by
  constructor
  · constructor
    · intro h
      unfold bsdFails
      cases hd : env.devname dev with
      | none => exact Or.inl rfl
      | some name =>
        by_cases hc : name.head? = some '?' ∨ name.head? = some '#'
        · exact Or.inr ⟨name, rfl, hc⟩
        · rw [get_path_bsd_name env dev name hd hc] at h
          exact absurd h (by simp)
    · intro h
      unfold bsdFails at h
      rcases h with hnone | ⟨name, hd, hc⟩
      · exact get_path_bsd_none env dev hnone
      · exact get_path_bsd_sentinel env dev name hd hc
  · intro name hd hc
    exact get_path_bsd_name env dev name hd hc

/-- C8 witness: with the concrete primitive `envBsd`, device 7 resolves
to /dev/ttys003, device 8 (sentinel name "?") and device 9 (NULL) give
NotFound. -/
theorem c8_bsd_lookup_witness :
    get_path_for_dev_bsd envBsd 7 = .ok "/dev/ttys003".toList ∧
    get_path_for_dev_bsd envBsd 8 = .error CttyError.NotFound ∧
    get_path_for_dev_bsd envBsd 9 = .error CttyError.NotFound := by
  refine ⟨(c8_bsd_lookup envBsd 7).2 "ttys003".toList (by decide) (by decide), ?_, ?_⟩
  · exact (c8_bsd_lookup envBsd 8).1.mpr (Or.inr ⟨"?".toList, by decide, by decide⟩)
  · exact (c8_bsd_lookup envBsd 9).1.mpr (Or.inl (by decide))

/-- C9 counterexample: in the record ") a b c d -1" the token at offset
4 after the delimiter-plus-two is "-1", a valid negative i32, yet
`get_ctty_dev` reports SystemDataParseFailure (the last `)` is at index
0, which the code rejects before parsing). -/
theorem c9_counterexample :
    (split_whitespace ((") a b c d -1".toList).drop 2))[4]? = some "-1".toList ∧
    parse_i32 "-1".toList = some (-1) ∧
    get_ctty_dev ") a b c d -1".toList = some (.error CttyError.SystemDataParseFailure) ∧
    get_ctty_dev ") a b c d -1".toList ≠ some (.ok (2 ^ 64 - 1)) := by
  decide

/-- C9 (amended): provided the last `)` of the record sits at a positive
index, if the token at offset 4 after the delimiter parses as a negative
signed 32-bit integer n, `get_ctty_dev` succeeds and returns the
two's-complement sign-extension 2^64 - |n| (for n = -1, 2^64 - 1); it
reports no error. -/
theorem c9_negative_widen (s : List Char) (idx : Nat) (tok : List Char) (n : Int)
    (hidx : rfindChar ')' s = some idx) (hpos : 0 < idx)
    (htok : (split_whitespace (s.drop (idx + 2)))[4]? = some tok)
    (hparse : parse_i32 tok = some n) (hneg : n < 0) :
    get_ctty_dev s = some (.ok (2 ^ 64 - n.natAbs)) := by
  have h := get_ctty_dev_of_token s idx tok hidx hpos htok
  rw [hparse] at h
  have h2 : get_ctty_dev s = some (.ok (i32_as_u64 n)) := by rw [h]
  have hrange := parse_i32_range tok n hparse
  have hval : i32_as_u64 n = 2 ^ 64 - n.natAbs := by
    unfold i32_as_u64
    have p64 : (2 : Int) ^ 64 = 18446744073709551616 := by norm_num
    have p64n : (2 : Nat) ^ 64 = 18446744073709551616 := by norm_num
    have p31 : (2 : Int) ^ 31 = 2147483648 := by norm_num
    rw [p64, p64n]
    rw [p31] at hrange
    omega
  rw [h2, hval]

/-- C9 witness: a record with ctty field -1 (no controlling terminal)
resolves to 2^64 - 1. -/
theorem c9_negative_widen_witness :
    get_ctty_dev "7 (bash) S 1 2 3 -1".toList = some (.ok (2 ^ 64 - 1)) := by
  have h := c9_negative_widen "7 (bash) S 1 2 3 -1".toList 7 "-1".toList (-1)
      (by decide) (by decide) (by decide) (by decide) (by decide)
  exact h

/-- C10: every successful result of the path resolver begins with
"/dev/": on the Linux family under the glob-primitive guarantee that
enumerated candidates match their /dev-rooted pattern, and on the BSD
family unconditionally by construction. -/
theorem c10_dev_rooted :
    (∀ (env : LinuxEnv) (dev : Nat) (p : List Char),
      (∀ pat es, env.glob pat = .ok es → ∀ q, Except.ok q ∈ es → beginsWithDev q) →
      get_path_for_dev env dev = some (.ok p) → beginsWithDev p) ∧
    (∀ (env : BsdEnv) (dev : Nat) (p : List Char),
      get_path_for_dev_bsd env dev = .ok p → beginsWithDev p) := by
  constructor
  · intro env dev p hglob h
    obtain ⟨pat, hmem, es, hg, hf⟩ := scanPatterns_ok_trace env dev patterns p h
    exact hglob pat es hg p (firstMatch_sound env dev es p hf).2
  · intro env dev p h
    obtain ⟨name, hd, hp⟩ := get_path_bsd_ok env dev p h
    rw [hp]
    exact beginsWithDev_append name

/-- C10 witness: concrete successful lookups on both families, with the
returned paths beginning with "/dev/". -/
theorem c10_dev_rooted_witness :
    get_path_for_dev envC10 34816 = some (.ok "/dev/pts/3".toList) ∧
    beginsWithDev "/dev/pts/3".toList ∧
    get_path_for_dev_bsd envBsd 7 = .ok "/dev/ttys003".toList ∧
    beginsWithDev "/dev/ttys003".toList := by
  have hglob : ∀ pat es, envC10.glob pat = .ok es →
      ∀ q, Except.ok q ∈ es → beginsWithDev q := by
    intro pat es heq q hq
    injection heq with h
    subst h
    simp only [List.mem_singleton] at hq
    injection hq with h2
    subst h2
    exact beginsWithDev_append "pts/3".toList
  exact ⟨by decide, c10_dev_rooted.1 envC10 34816 "/dev/pts/3".toList hglob (by decide),
    by decide, c10_dev_rooted.2 envBsd 7 "/dev/ttys003".toList (by decide)⟩
